import Mathlib

/-!
Verification of the `toulouse-xmas-tree-collection-places` ETL program
(`src/main.rs`): a one-shot pipeline that deletes and recreates a search
index, fetches a JSON array of Christmas-tree collection places, reshapes
each record, bulk-indexes the results and checks the bulk response's
`errors` flag.

The embedding below translates the Rust source shallowly:
  * JSON documents become the inductive `Json` (serde_json `Value`);
    floating-point numbers carry no arithmetic in this program — every
    `f64` is only moved around verbatim — so they are embedded as `ℚ`;
  * the derived serde `Deserialize` instances for `SourcePlace` and
    `SourceFields` become the explicit parsers `parseSourcePlace` and
    `parseSourceFields` (unknown object fields ignored, missing or
    wrongly-typed required fields fatal, as serde derives behave without
    `deny_unknown_fields`);
  * the derived serde `Serialize` instance for `IndexedPlace` becomes
    `IndexedPlace.toJson`;
  * `main` becomes `runMain`, a function from a `World` (the outcomes the
    environment and the two remote services would give to each call) to
    the list of outgoing calls actually issued, in order, together with
    the final result (`Except.ok` = exit code 0, `Except.error` = the
    propagated `anyhow` error and a non-zero exit).

Faithfulness notes, tied to the source:
  * the delete call is `.send().await?` with NO `error_for_status_code()`,
    so only a transport error aborts there; any HTTP response, whatever
    its status, lets the run continue;
  * the create and bulk calls add `.error_for_status_code()?`, and the
    fetch uses reqwest's `.error_for_status()?`: a non-2xx status aborts;
  * `bulk_response["errors"]` is serde_json `Value` indexing, which yields
    `Null` when the key is absent or the value is not an object;
  * `bulk_response["errors"] == JsonValue::Bool(true)` is serde_json
    structural equality against the constant `Bool(true)`, which holds
    exactly when the indexed value is the boolean `true`.
-/

namespace XmasTree

/-- JSON values, as serde_json's `Value`: the program's `f64` numbers are
never computed with, only copied, so they are embedded as rationals. -/
inductive Json where
  | null : Json
  | bool : Bool → Json
  | num : ℚ → Json
  | str : String → Json
  | arr : List Json → Json
  | obj : List (String × Json) → Json

/-- First value bound to key `k` in a JSON object's field list (serde_json
object member lookup). -/
def lookupField (fs : List (String × Json)) (k : String) : Option Json :=
  (fs.find? (fun p => p.1 == k)).map (fun p => p.2)

/-- serde_json `Value` indexing by a string key (`bulk_response["errors"]`):
returns the member when the value is an object containing the key, and
`Null` otherwise. -/
def Json.index (j : Json) (k : String) : Json :=
  match j with
  | .obj fs => (lookupField fs k).getD .null
  | _ => .null

/-- The source's `bulk_response["errors"] == JsonValue::Bool(true)`:
serde_json structural equality evaluated against the constant `Bool(true)`,
which holds exactly when the value is the JSON boolean `true`. -/
def Json.eqBoolTrue : Json → Bool
  | .bool b => b
  | _ => false

/-- `struct SourceFields` from `src/main.rs`. -/
structure SourceFields where
  commune : String
  adresse : String
  geo_point_2d : ℚ × ℚ

/-- `struct SourcePlace` from `src/main.rs`. -/
structure SourcePlace where
  datasetid : String
  recordid : String
  fields : SourceFields

/-- `struct IndexedPlace` from `src/main.rs`. -/
structure IndexedPlace where
  dataset_id : String
  record_id : String
  city : String
  street : String
  location : ℚ × ℚ

/-- serde: a JSON string deserializes into `String`; anything else is a
type error. -/
def Json.asString : Json → Option String
  | .str s => some s
  | _ => none

/-- serde: a JSON number deserializes into `f64`; anything else is a type
error. -/
def Json.asNum : Json → Option ℚ
  | .num q => some q
  | _ => none

/-- serde: the tuple `(f64, f64)` deserializes from a JSON array of
exactly two numbers; a shorter, longer or non-numeric array is an error. -/
def parseGeoPoint : Json → Option (ℚ × ℚ)
  | .arr [a, b] => do
      let x ← a.asNum
      let y ← b.asNum
      pure (x, y)
  | _ => none

/-- Derived `Deserialize` for `SourceFields`: the value must be an object;
`commune` and `adresse` must be present as strings and `geo_point_2d` as a
two-number array; unknown members are ignored. -/
def parseSourceFields : Json → Option SourceFields
  | .obj fs => do
      let c ← (lookupField fs "commune").bind Json.asString
      let a ← (lookupField fs "adresse").bind Json.asString
      let g ← (lookupField fs "geo_point_2d").bind parseGeoPoint
      pure ⟨c, a, g⟩
  | _ => none

/-- Derived `Deserialize` for `SourcePlace`: the value must be an object
with string members `datasetid` and `recordid` and an object member
`fields` of the `SourceFields` shape; unknown members are ignored. -/
def parseSourcePlace : Json → Option SourcePlace
  | .obj fs => do
      let d ← (lookupField fs "datasetid").bind Json.asString
      let r ← (lookupField fs "recordid").bind Json.asString
      let f ← (lookupField fs "fields").bind parseSourceFields
      pure ⟨d, r, f⟩
  | _ => none

/-- `serde_json::from_slice::<Vec<SourcePlace>>` on an already-lexed JSON
document: the document must be an array and every element must parse;
a single failing element fails the whole parse. -/
def parsePlaces : Json → Option (List SourcePlace)
  | .arr xs => xs.mapM parseSourcePlace
  | _ => none

/-- The `.map(|place| IndexedPlace { ... })` closure in `main`
(`src/main.rs` lines 89-99): rename four fields verbatim and swap the
`geo_point_2d` pair into `(lon, lat)` order. -/
def transform (place : SourcePlace) : IndexedPlace :=
  { dataset_id := place.datasetid
    record_id := place.recordid
    city := place.fields.commune
    street := place.fields.adresse
    location := (place.fields.geo_point_2d.2, place.fields.geo_point_2d.1) }

/-- The whole transformation step: `places.into_iter().map(...)`. -/
def transformAll (places : List SourcePlace) : List IndexedPlace :=
  places.map transform

/-- Derived `Serialize` for `IndexedPlace`: an object with the five
members in declaration order; the `(f64, f64)` tuple serializes as a
two-element array. -/
def IndexedPlace.toJson (p : IndexedPlace) : Json :=
  Json.obj
    [("dataset_id", .str p.dataset_id),
     ("record_id", .str p.record_id),
     ("city", .str p.city),
     ("street", .str p.street),
     ("location", .arr [.num p.location.1, .num p.location.2])]

/-- `const DATA_URL` from `src/main.rs`. -/
def DATA_URL : String :=
  "https://data.toulouse-metropole.fr/explore/dataset/collecte-des-sapins-de-noel/download/?format=json"

/-- `const INDEX_NAME` from `src/main.rs`. -/
def INDEX_NAME : String := "xmas-tree-recycling"

/-- Outcome the environment hands a single HTTP call: either a transport
failure (no HTTP response at all), or a response with a status code and
the JSON parse of its body (`none` when the body is not valid JSON; the
body is irrelevant for calls whose body the program never reads). -/
inductive HttpOutcome where
  | transportErr : HttpOutcome
  | resp : Nat → Option Json → HttpOutcome

/-- `StatusCode::is_success()`, used by both HTTP clients: 2xx. -/
def is2xx (code : Nat) : Bool := 200 ≤ code && code < 300

/-- The outcomes the process environment and the two remote services
(search store, data endpoint) would give to each of `main`'s external
calls: the `ELASTICSEARCH_URL` variable, then the delete-index,
create-index, data-fetch and bulk calls in program order. -/
structure World where
  esUrl : Option String
  deleteResp : HttpOutcome
  createResp : HttpOutcome
  fetchResp : HttpOutcome
  bulkResp : HttpOutcome

/-- An outgoing network call of `main`, recorded with its payload. -/
inductive Call where
  | deleteIndex : String → Call
  | createIndex : String → Json → Call
  | fetchGet : String → Call
  | bulk : String → List Json → Call

/-- The `anyhow` errors `main` can return (each makes the process exit
non-zero): missing env variable, a transport failure, a non-2xx status
(`error_for_status_code` / `error_for_status`; for the store calls,
modelled from the spec as also carrying the store's returned payload),
a JSON parse failure, and the bulk body's `errors: true` flag (carrying
the full response body, from `anyhow!("Failed to store data: {}", ...)`). -/
inductive RunError where
  | envVarMissing : RunError
  | transportError : RunError
  | statusError : Nat → Option Json → RunError
  | parseError : RunError
  | bulkItemErrors : Json → RunError

/-- Modelled from the spec: the search-store client's
`error_for_status_code` lives in the client crate, not in this
repository's sources; per the spec ("the error must include the store's
returned status/error payload") the error it raises for a non-2xx
response carries the returned status code and the response payload. -/
def statusFailure (code : Nat) (body : Option Json) : RunError :=
  RunError.statusError code body

/-- The body of the create-index call:
`{"mappings": {"properties": {"location": {"type": "geo_point"}}}}`. -/
def mappingBody : Json :=
  .obj [("mappings", .obj [("properties",
    .obj [("location", .obj [("type", .str "geo_point")])])])]

/-- `main` from `src/main.rs`, step for step: read the env variable;
delete the index (`send().await?` — only a transport failure aborts, any
HTTP status is accepted); create the index with the geo-point mapping
(`error_for_status_code()?`); GET the data (`error_for_status()?`), parse
it as `Vec<SourcePlace>`; transform; send one bulk request with one index
operation per place (`error_for_status_code()?`); parse the bulk response
body and fail if its `errors` member equals the boolean `true`.  Returns
the calls issued, in order, and the final result. -/
def runMain (w : World) : List Call × Except RunError Unit :=
  match w.esUrl with
  | none => ([], .error .envVarMissing)
  | some _ =>
    let t1 : List Call := [.deleteIndex INDEX_NAME]
    match w.deleteResp with
    | .transportErr => (t1, .error .transportError)
    | .resp _ _ =>
      let t2 : List Call := t1 ++ [.createIndex INDEX_NAME mappingBody]
      match w.createResp with
      | .transportErr => (t2, .error .transportError)
      | .resp ccode cbody =>
        if is2xx ccode then
          let t3 : List Call := t2 ++ [.fetchGet DATA_URL]
          match w.fetchResp with
          | .transportErr => (t3, .error .transportError)
          | .resp fcode fbody =>
            if is2xx fcode then
              match fbody with
              | none => (t3, .error .parseError)
              | some fj =>
                match parsePlaces fj with
                | none => (t3, .error .parseError)
                | some places =>
                  let docs := (transformAll places).map IndexedPlace.toJson
                  let t4 : List Call := t3 ++ [.bulk INDEX_NAME docs]
                  match w.bulkResp with
                  | .transportErr => (t4, .error .transportError)
                  | .resp bcode bbody =>
                    if is2xx bcode then
                      match bbody with
                      | none => (t4, .error .parseError)
                      | some bj =>
                        if (bj.index "errors").eqBoolTrue then
                          (t4, .error (.bulkItemErrors bj))
                        else
                          (t4, .ok ())
                    else (t4, .error (statusFailure bcode bbody))
            else (t3, .error (.statusError fcode none))
        else (t2, .error (statusFailure ccode cbody))

/-! ## Helper lemmas -/

theorem lookupField_cons_ne (k k' : String) (v : Json) (fs : List (String × Json))
    (h : ¬ k = k') : lookupField ((k, v) :: fs) k' = lookupField fs k' := by
  simp [lookupField, List.find?_cons, h]

theorem mapM_parseSourcePlace_none (xs : List Json) (x : Json) (hx : x ∈ xs)
    (hn : parseSourcePlace x = none) : xs.mapM parseSourcePlace = none := by
  induction xs with
  | nil => cases hx
  | cons a l ih =>
    rw [List.mapM_cons]
    rcases List.mem_cons.mp hx with h | h
    · subst h
      rw [hn]
      rfl
    · cases ha : parseSourcePlace a with
      | none => rfl
      | some p =>
        rw [ih h]
        rfl

theorem eqBoolTrue_eq_false_of_ne (j : Json) (h : j ≠ Json.bool true) :
    j.eqBoolTrue = false := by
  cases j with
  | bool b =>
    cases b with
    | false => rfl
    | true => exact absurd rfl h
  | null => rfl
  | num q => rfl
  | str s => rfl
  | arr xs => rfl
  | obj fs => rfl

/-! ## Claims -/

/-- C1: the transformer copies `datasetid`, `recordid`, `fields.commune`
and `fields.adresse` verbatim into `dataset_id`, `record_id`, `city` and
`street`, sets `location` to exactly the swapped pair
`(geo_point_2d.2, geo_point_2d.1)`, and computes nothing else: the whole
output record is literally those five copied values. -/
theorem transform_copies_fields_and_swaps_location (place : SourcePlace) :
    (transform place).dataset_id = place.datasetid ∧
    (transform place).record_id = place.recordid ∧
    (transform place).city = place.fields.commune ∧
    (transform place).street = place.fields.adresse ∧
    (transform place).location = (place.fields.geo_point_2d.2, place.fields.geo_point_2d.1) ∧
    transform place =
      { dataset_id := place.datasetid
        record_id := place.recordid
        city := place.fields.commune
        street := place.fields.adresse
        location := (place.fields.geo_point_2d.2, place.fields.geo_point_2d.1) } :=
  ⟨rfl, rfl, rfl, rfl, rfl, rfl⟩

/-- C4: the transformation step is a pure 1:1 map — output length equals
input length, the i-th output is `transform` of the i-th input (so order
is preserved and nothing is filtered, deduplicated or validated), and the
empty input yields the empty output. -/
theorem transformAll_length_order_empty (places : List SourcePlace) :
    (transformAll places).length = places.length ∧
    (∀ i : Nat, (transformAll places)[i]? = places[i]?.map transform) ∧
    transformAll [] = [] := by
  refine ⟨List.length_map _ _, fun i => ?_, rfl⟩
  simp [transformAll]

theorem lookupField_append_cons_ne (l₁ l₂ : List (String × Json)) (k k' : String)
    (v : Json) (h : ¬ k = k') :
    lookupField (l₁ ++ (k, v) :: l₂) k' = lookupField (l₁ ++ l₂) k' := by
  induction l₁ with
  | nil =>
    simp only [List.nil_append]
    exact lookupField_cons_ne k k' v l₂ h
  | cons a l ih =>
    simp only [List.cons_append, lookupField, List.find?_cons]
    cases a.1 == k' with
    | true => rfl
    | false => exact ih

theorem parseSourcePlace_congr (fs₁ fs₂ : List (String × Json))
    (h1 : lookupField fs₁ "datasetid" = lookupField fs₂ "datasetid")
    (h2 : lookupField fs₁ "recordid" = lookupField fs₂ "recordid")
    (h3 : lookupField fs₁ "fields" = lookupField fs₂ "fields") :
    parseSourcePlace (Json.obj fs₁) = parseSourcePlace (Json.obj fs₂) := by
  simp only [parseSourcePlace, h1, h2, h3]

theorem parseSourceFields_congr (fs₁ fs₂ : List (String × Json))
    (h1 : lookupField fs₁ "commune" = lookupField fs₂ "commune")
    (h2 : lookupField fs₁ "adresse" = lookupField fs₂ "adresse")
    (h3 : lookupField fs₁ "geo_point_2d" = lookupField fs₂ "geo_point_2d") :
    parseSourceFields (Json.obj fs₁) = parseSourceFields (Json.obj fs₂) := by
  simp only [parseSourceFields, h1, h2, h3]

/-- C10: the derived deserializers ignore unknown object members — an
extra member inserted at ANY position of a `SourcePlace` or
`SourceFields` object leaves the parse result unchanged — while every
required member that is missing or wrongly typed (`datasetid`,
`recordid` or `fields` at the top level; `commune`, `adresse` or
`geo_point_2d` inside `fields`; "missing or wrongly typed" being exactly
`(lookupField fs key).bind itsParser = none`) makes its object fail to
parse, and one failing element fails the whole array parse. -/
theorem parse_ignores_unknown_members_requires_typed_fields :
    (∀ (l₁ l₂ : List (String × Json)) (k : String) (v : Json),
      ¬ (k = "datasetid" ∨ k = "recordid" ∨ k = "fields") →
      parseSourcePlace (Json.obj (l₁ ++ (k, v) :: l₂)) =
        parseSourcePlace (Json.obj (l₁ ++ l₂))) ∧
    (∀ (l₁ l₂ : List (String × Json)) (k : String) (v : Json),
      ¬ (k = "commune" ∨ k = "adresse" ∨ k = "geo_point_2d") →
      parseSourceFields (Json.obj (l₁ ++ (k, v) :: l₂)) =
        parseSourceFields (Json.obj (l₁ ++ l₂))) ∧
    (∀ fs : List (String × Json),
      (lookupField fs "datasetid").bind Json.asString = none ∨
      (lookupField fs "recordid").bind Json.asString = none ∨
      (lookupField fs "fields").bind parseSourceFields = none →
      parseSourcePlace (Json.obj fs) = none) ∧
    (∀ fs : List (String × Json),
      (lookupField fs "commune").bind Json.asString = none ∨
      (lookupField fs "adresse").bind Json.asString = none ∨
      (lookupField fs "geo_point_2d").bind parseGeoPoint = none →
      parseSourceFields (Json.obj fs) = none) ∧
    (∀ (xs : List Json) (x : Json), x ∈ xs → parseSourcePlace x = none →
      parsePlaces (Json.arr xs) = none) := by
  refine ⟨fun l₁ l₂ k v hk => ?_, fun l₁ l₂ k v hk => ?_, fun fs h => ?_, fun fs h => ?_,
    fun xs x hx hn => mapM_parseSourcePlace_none xs x hx hn⟩
  · push_neg at hk
    exact parseSourcePlace_congr _ _
      (lookupField_append_cons_ne l₁ l₂ k "datasetid" v hk.1)
      (lookupField_append_cons_ne l₁ l₂ k "recordid" v hk.2.1)
      (lookupField_append_cons_ne l₁ l₂ k "fields" v hk.2.2)
  · push_neg at hk
    exact parseSourceFields_congr _ _
      (lookupField_append_cons_ne l₁ l₂ k "commune" v hk.1)
      (lookupField_append_cons_ne l₁ l₂ k "adresse" v hk.2.1)
      (lookupField_append_cons_ne l₁ l₂ k "geo_point_2d" v hk.2.2)
  · rcases h with h | h | h
    · simp [parseSourcePlace, h]
    · cases hd : (lookupField fs "datasetid").bind Json.asString with
      | none => simp [parseSourcePlace, hd]
      | some d => simp [parseSourcePlace, hd, h]
    · cases hd : (lookupField fs "datasetid").bind Json.asString with
      | none => simp [parseSourcePlace, hd]
      | some d =>
        cases hr : (lookupField fs "recordid").bind Json.asString with
        | none => simp [parseSourcePlace, hd, hr]
        | some r => simp [parseSourcePlace, hd, hr, h]
  · rcases h with h | h | h
    · simp [parseSourceFields, h]
    · cases hd : (lookupField fs "commune").bind Json.asString with
      | none => simp [parseSourceFields, hd]
      | some d => simp [parseSourceFields, hd, h]
    · cases hd : (lookupField fs "commune").bind Json.asString with
      | none => simp [parseSourceFields, hd]
      | some d =>
        cases hr : (lookupField fs "adresse").bind Json.asString with
        | none => simp [parseSourceFields, hd, hr]
        | some r => simp [parseSourceFields, hd, hr, h]

/-- Witness for C10 at concrete inputs: an extra `"geometry"` member in
the middle of a place object and an extra `"record_timestamp"` member in
the middle of a fields object are ignored; a place missing `recordid`
does not parse, nor one whose `fields` is a string; a fields object
missing `commune` does not parse, nor one whose `geo_point_2d` holds a
string coordinate; an array containing a failing element does not parse.
-/
theorem parse_ignores_unknown_members_requires_typed_fields_witness :
    parseSourcePlace (Json.obj [("datasetid", Json.str "d1"), ("geometry", Json.null),
        ("recordid", Json.str "r1"), ("fields", Json.obj [("commune", Json.str "TOULOUSE"),
        ("adresse", Json.str "1 rue X"),
        ("geo_point_2d", Json.arr [Json.num 43.6, Json.num 1.4])])]) =
      parseSourcePlace (Json.obj [("datasetid", Json.str "d1"),
        ("recordid", Json.str "r1"), ("fields", Json.obj [("commune", Json.str "TOULOUSE"),
        ("adresse", Json.str "1 rue X"),
        ("geo_point_2d", Json.arr [Json.num 43.6, Json.num 1.4])])]) ∧
    parseSourceFields (Json.obj [("commune", Json.str "TOULOUSE"),
        ("record_timestamp", Json.str "2020-01-06"), ("adresse", Json.str "1 rue X"),
        ("geo_point_2d", Json.arr [Json.num 43.6, Json.num 1.4])]) =
      parseSourceFields (Json.obj [("commune", Json.str "TOULOUSE"),
        ("adresse", Json.str "1 rue X"),
        ("geo_point_2d", Json.arr [Json.num 43.6, Json.num 1.4])]) ∧
    parseSourcePlace (Json.obj [("datasetid", Json.str "d1")]) = none ∧
    parseSourcePlace (Json.obj [("datasetid", Json.str "d1"),
      ("recordid", Json.str "r1"), ("fields", Json.str "oops")]) = none ∧
    parseSourceFields (Json.obj [("adresse", Json.str "1 rue X"),
      ("geo_point_2d", Json.arr [Json.num 43.6, Json.num 1.4])]) = none ∧
    parseSourceFields (Json.obj [("commune", Json.str "TOULOUSE"),
      ("adresse", Json.str "1 rue X"),
      ("geo_point_2d", Json.arr [Json.str "43.6", Json.num 1.4])]) = none ∧
    parsePlaces (Json.arr [Json.obj [("recordid", Json.str "r1")]]) = none := by
  refine ⟨?_, ?_, ?_, ?_, ?_, ?_, ?_⟩
  · exact parse_ignores_unknown_members_requires_typed_fields.1
      [("datasetid", Json.str "d1")] _ "geometry" Json.null (by decide)
  · exact parse_ignores_unknown_members_requires_typed_fields.2.1
      [("commune", Json.str "TOULOUSE")] _ "record_timestamp" (Json.str "2020-01-06")
      (by decide)
  · exact parse_ignores_unknown_members_requires_typed_fields.2.2.1 _
      (Or.inr (Or.inl rfl))
  · exact parse_ignores_unknown_members_requires_typed_fields.2.2.1 _
      (Or.inr (Or.inr rfl))
  · exact parse_ignores_unknown_members_requires_typed_fields.2.2.2.1 _ (Or.inl rfl)
  · exact parse_ignores_unknown_members_requires_typed_fields.2.2.2.1 _
      (Or.inr (Or.inr rfl))
  · exact parse_ignores_unknown_members_requires_typed_fields.2.2.2.2 _
      (Json.obj [("recordid", Json.str "r1")]) (List.mem_singleton_self _) rfl

/-- The fetched body of claim C6:
`[{"datasetid":"d1","recordid":"r1","fields":{"commune":"TOULOUSE",
"adresse":"1 rue X","geo_point_2d":[43.6,1.4]}}]`. -/
def c6Body : Json :=
  .arr [.obj [("datasetid", .str "d1"), ("recordid", .str "r1"),
    ("fields", .obj [("commune", .str "TOULOUSE"), ("adresse", .str "1 rue X"),
      ("geo_point_2d", .arr [.num 43.6, .num 1.4])])]]

/-- The bulk document claim C6 expects:
`{"dataset_id":"d1","record_id":"r1","city":"TOULOUSE","street":"1 rue X",
"location":[1.4,43.6]}`. -/
def c6Doc : Json :=
  .obj [("dataset_id", .str "d1"), ("record_id", .str "r1"),
    ("city", .str "TOULOUSE"), ("street", .str "1 rue X"),
    ("location", .arr [.num 1.4, .num 43.6])]

/-- A run where every call succeeds and the fetch returns `c6Body`. -/
def c6World : World :=
  { esUrl := some "http://localhost:9200"
    deleteResp := .resp 200 none
    createResp := .resp 200 none
    fetchResp := .resp 200 (some c6Body)
    bulkResp := .resp 200 (some (Json.obj [("errors", Json.bool false)])) }

/-- C6: on the single-record input array of the claim, the pipeline issues
exactly one bulk operation, whose document is exactly the renamed record
with `location = [1.4, 43.6]`, and the run succeeds. -/
theorem single_record_yields_single_bulk_doc :
    (runMain c6World).1 = [Call.deleteIndex INDEX_NAME,
      Call.createIndex INDEX_NAME mappingBody, Call.fetchGet DATA_URL,
      Call.bulk INDEX_NAME [c6Doc]] ∧
    (runMain c6World).2 = Except.ok () :=
  ⟨rfl, rfl⟩

/-- A run where the delete call answers HTTP 500 with an error payload —
a failure that is in no way a "not found" — and everything else succeeds.
-/
def c2World : World :=
  { esUrl := some "http://localhost:9200"
    deleteResp := .resp 500 (some (Json.obj [("error", Json.str "internal server error")]))
    createResp := .resp 200 none
    fetchResp := .resp 200 (some (Json.arr []))
    bulkResp := .resp 200 (some (Json.obj [("errors", Json.bool false)])) }

/-- C2: counter to the claim, a delete failure that is not of the
"not found" class does NOT abort the run — the delete call has no status
check (`send().await?` only), so after an HTTP 500 from delete the
pipeline still issues the create-index, fetch and bulk calls and finishes
with exit code 0. -/
theorem delete_status_500_not_fatal :
    (runMain c2World).1 = [Call.deleteIndex INDEX_NAME,
      Call.createIndex INDEX_NAME mappingBody, Call.fetchGet DATA_URL,
      Call.bulk INDEX_NAME []] ∧
    (runMain c2World).2 = Except.ok () :=
  ⟨rfl, rfl⟩

/-- C3: when the bulk call itself gets a 2xx response but the parsed body
has `errors` equal to the boolean `true`, `main` returns the
`Failed to store data` error carrying the full response body — so the
process exits non-zero although every HTTP call succeeded. -/
theorem bulk_errors_true_fails_run (w : World) (u : String)
    (ds : Nat) (db : Option Json) (cs : Nat) (cb : Option Json)
    (fstat : Nat) (fj : Json) (ps : List SourcePlace) (bs : Nat) (bj : Json)
    (hu : w.esUrl = some u)
    (hd : w.deleteResp = HttpOutcome.resp ds db)
    (hc : w.createResp = HttpOutcome.resp cs cb) (hcs : is2xx cs = true)
    (hf : w.fetchResp = HttpOutcome.resp fstat (some fj)) (hfs : is2xx fstat = true)
    (hp : parsePlaces fj = some ps)
    (hb : w.bulkResp = HttpOutcome.resp bs (some bj)) (hbs : is2xx bs = true)
    (he : bj.index "errors" = Json.bool true) :
    (runMain w).2 = Except.error (RunError.bulkItemErrors bj) := by
  simp [runMain, hu, hd, hc, hcs, hf, hfs, hp, hb, hbs, he, Json.eqBoolTrue]

/-- A run whose bulk response is 2xx but reports
`{"errors": true, "items": []}`. -/
def c3World : World :=
  { esUrl := some "http://localhost:9200"
    deleteResp := .resp 200 none
    createResp := .resp 200 none
    fetchResp := .resp 200 (some (Json.arr []))
    bulkResp := .resp 200 (some (Json.obj [("errors", Json.bool true), ("items", Json.arr [])])) }

/-- Witness for C3: on `c3World` the run ends in the bulk-errors failure
carrying the full response body. -/
theorem bulk_errors_true_fails_run_witness :
    (runMain c3World).2 = Except.error (RunError.bulkItemErrors
      (Json.obj [("errors", Json.bool true), ("items", Json.arr [])])) :=
  bulk_errors_true_fails_run c3World "http://localhost:9200" 200 none 200 none
    200 (Json.arr []) [] 200 (Json.obj [("errors", Json.bool true), ("items", Json.arr [])])
    rfl rfl rfl rfl rfl rfl rfl rfl rfl rfl

/-- The ways the fetch step can fail: transport error on the GET, a
non-2xx status, a 2xx body that is not valid JSON, or a 2xx JSON body
that does not parse as `Vec<SourcePlace>`. -/
def fetchStepFails (w : World) : Prop :=
  w.fetchResp = HttpOutcome.transportErr ∨
  (∃ c b, w.fetchResp = HttpOutcome.resp c b ∧ is2xx c = false) ∨
  (∃ c, w.fetchResp = HttpOutcome.resp c none ∧ is2xx c = true) ∨
  (∃ c j, w.fetchResp = HttpOutcome.resp c (some j) ∧ is2xx c = true ∧ parsePlaces j = none)

/-- C5: whenever the fetch step fails in any of its ways (transport
error, non-2xx status such as 500, or a parse/shape error), the run has
already issued the delete and create calls, issues no bulk call at all,
and aborts with an error — the freshly recreated index is left empty, not
reverted. -/
theorem fetch_failure_aborts_before_bulk (w : World) (u : String)
    (ds : Nat) (db : Option Json) (cs : Nat) (cb : Option Json)
    (hu : w.esUrl = some u)
    (hd : w.deleteResp = HttpOutcome.resp ds db)
    (hc : w.createResp = HttpOutcome.resp cs cb) (hcs : is2xx cs = true)
    (hfail : fetchStepFails w) :
    (runMain w).1 = [Call.deleteIndex INDEX_NAME,
      Call.createIndex INDEX_NAME mappingBody, Call.fetchGet DATA_URL] ∧
    (∀ (ix : String) (ops : List Json), Call.bulk ix ops ∉ (runMain w).1) ∧
    ∃ e, (runMain w).2 = Except.error e := by
  have key : ∃ e, runMain w = ([Call.deleteIndex INDEX_NAME,
      Call.createIndex INDEX_NAME mappingBody, Call.fetchGet DATA_URL], Except.error e) := by
    rcases hfail with h | ⟨c, b, h, hns⟩ | ⟨c, h, hs⟩ | ⟨c, j, h, hs, hpn⟩
    · exact ⟨RunError.transportError, by simp [runMain, hu, hd, hc, hcs, h]⟩
    · exact ⟨RunError.statusError c none, by simp [runMain, hu, hd, hc, hcs, h, hns]⟩
    · exact ⟨RunError.parseError, by simp [runMain, hu, hd, hc, hcs, h, hs]⟩
    · exact ⟨RunError.parseError, by simp [runMain, hu, hd, hc, hcs, h, hs, hpn]⟩
  obtain ⟨e, hrun⟩ := key
  refine ⟨by rw [hrun], ?_, ⟨e, by rw [hrun]⟩⟩
  intro ix ops hmem
  rw [hrun] at hmem
  simp at hmem

/-- A run where the fetch endpoint answers HTTP 500. -/
def c5World : World :=
  { esUrl := some "http://localhost:9200"
    deleteResp := .resp 200 none
    createResp := .resp 200 none
    fetchResp := .resp 500 none
    bulkResp := .resp 200 none }

/-- Witness for C5: after an HTTP 500 from the fetch, exactly the delete,
create and fetch calls were issued, no bulk call happened, and the run
errored. -/
theorem fetch_failure_aborts_before_bulk_witness :
    (runMain c5World).1 = [Call.deleteIndex INDEX_NAME,
      Call.createIndex INDEX_NAME mappingBody, Call.fetchGet DATA_URL] ∧
    Call.bulk INDEX_NAME [] ∉ (runMain c5World).1 ∧
    ∃ e, (runMain c5World).2 = Except.error e :=
  have h := fetch_failure_aborts_before_bulk c5World "http://localhost:9200"
    200 none 200 none rfl rfl rfl rfl (Or.inr (Or.inl ⟨500, none, rfl, rfl⟩))
  ⟨h.1, h.2.1 INDEX_NAME [], h.2.2⟩

/-- C7: any failure of the create-index call is fatal — a transport
failure aborts with a transport error, and a non-2xx status aborts with
an error carrying the returned status and payload; in both cases no
fetch or bulk call is ever issued. -/
theorem create_failure_fatal (w : World) (u : String) (ds : Nat) (db : Option Json)
    (hu : w.esUrl = some u)
    (hd : w.deleteResp = HttpOutcome.resp ds db) :
    (w.createResp = HttpOutcome.transportErr →
      runMain w = ([Call.deleteIndex INDEX_NAME, Call.createIndex INDEX_NAME mappingBody],
        Except.error RunError.transportError)) ∧
    (∀ (code : Nat) (body : Option Json),
      w.createResp = HttpOutcome.resp code body → is2xx code = false →
      runMain w = ([Call.deleteIndex INDEX_NAME, Call.createIndex INDEX_NAME mappingBody],
        Except.error (statusFailure code body))) := by
  constructor
  · intro h
    simp [runMain, hu, hd, h]
  · intro code body h hns
    simp [runMain, hu, hd, h, hns]

/-- A run where the create-index call answers HTTP 400 with an error
payload (as for a malformed mapping). -/
def c7World : World :=
  { esUrl := some "http://localhost:9200"
    deleteResp := .resp 200 none
    createResp := .resp 400 (some (Json.obj [("error", Json.str "mapper_parsing_exception")]))
    fetchResp := .resp 200 (some (Json.arr []))
    bulkResp := .resp 200 none }

/-- Witness for C7: on `c7World` the run stops right after the create
call with a status error carrying 400 and the store's payload. -/
theorem create_failure_fatal_witness :
    runMain c7World = ([Call.deleteIndex INDEX_NAME, Call.createIndex INDEX_NAME mappingBody],
      Except.error (statusFailure 400
        (some (Json.obj [("error", Json.str "mapper_parsing_exception")])))) :=
  (create_failure_fatal c7World "http://localhost:9200" 200 none rfl rfl).2 400
    (some (Json.obj [("error", Json.str "mapper_parsing_exception")])) rfl rfl

/-- C8: the bulk-success check is an exact comparison with the JSON
boolean `true`: whenever the parsed bulk body's `errors` member — `Null`
when absent, by serde_json indexing — is anything other than the boolean
`true` (null, false, a string such as `"true"`, a number, ...), the run
succeeds. -/
theorem bulk_errors_check_is_exact (w : World) (u : String)
    (ds : Nat) (db : Option Json) (cs : Nat) (cb : Option Json)
    (fstat : Nat) (fj : Json) (ps : List SourcePlace) (bs : Nat) (bj : Json)
    (hu : w.esUrl = some u)
    (hd : w.deleteResp = HttpOutcome.resp ds db)
    (hc : w.createResp = HttpOutcome.resp cs cb) (hcs : is2xx cs = true)
    (hf : w.fetchResp = HttpOutcome.resp fstat (some fj)) (hfs : is2xx fstat = true)
    (hp : parsePlaces fj = some ps)
    (hb : w.bulkResp = HttpOutcome.resp bs (some bj)) (hbs : is2xx bs = true)
    (he : bj.index "errors" ≠ Json.bool true) :
    (runMain w).2 = Except.ok () := by
  simp [runMain, hu, hd, hc, hcs, hf, hfs, hp, hb, hbs,
    eqBoolTrue_eq_false_of_ne _ he]

/-- A run whose bulk response reports `errors` as the STRING `"true"`. -/
def c8World : World :=
  { esUrl := some "http://localhost:9200"
    deleteResp := .resp 200 none
    createResp := .resp 200 none
    fetchResp := .resp 200 (some (Json.arr []))
    bulkResp := .resp 200 (some (Json.obj [("errors", Json.str "true")])) }

/-- Witness for C8: with `errors` bound to the string `"true"` the run
still succeeds. -/
theorem bulk_errors_check_is_exact_witness :
    (runMain c8World).2 = Except.ok () :=
  bulk_errors_check_is_exact c8World "http://localhost:9200" 200 none 200 none
    200 (Json.arr []) [] 200 (Json.obj [("errors", Json.str "true")])
    rfl rfl rfl rfl rfl rfl rfl rfl rfl (fun h => Json.noConfusion h)

/-- C9: when the fetched array is empty, the bulk request is still issued
— the call trace ends with a bulk call whose operation list is empty —
whatever the store then answers to it. -/
theorem empty_array_bulk_still_issued (w : World) (u : String)
    (ds : Nat) (db : Option Json) (cs : Nat) (cb : Option Json) (fstat : Nat)
    (hu : w.esUrl = some u)
    (hd : w.deleteResp = HttpOutcome.resp ds db)
    (hc : w.createResp = HttpOutcome.resp cs cb) (hcs : is2xx cs = true)
    (hf : w.fetchResp = HttpOutcome.resp fstat (some (Json.arr []))) (hfs : is2xx fstat = true) :
    (runMain w).1 = [Call.deleteIndex INDEX_NAME,
      Call.createIndex INDEX_NAME mappingBody, Call.fetchGet DATA_URL,
      Call.bulk INDEX_NAME []] := by
  have hpp : parsePlaces (Json.arr []) = some [] := rfl
  have htt : transformAll [] = [] := rfl
  cases hbr : w.bulkResp with
  | transportErr => simp [runMain, hu, hd, hc, hcs, hf, hfs, hbr, hpp, htt]
  | resp bc bb =>
    cases h2 : is2xx bc with
    | false => simp [runMain, hu, hd, hc, hcs, hf, hfs, hbr, h2, hpp, htt]
    | true =>
      cases bb with
      | none => simp [runMain, hu, hd, hc, hcs, hf, hfs, hbr, h2, hpp, htt]
      | some bj =>
        cases h3 : (bj.index "errors").eqBoolTrue with
        | false => simp [runMain, hu, hd, hc, hcs, hf, hfs, hbr, h2, h3, hpp, htt]
        | true => simp [runMain, hu, hd, hc, hcs, hf, hfs, hbr, h2, h3, hpp, htt]

/-- A run fetching an empty array, whose store rejects the empty bulk
request with HTTP 400 (stores may also accept it; the request is issued
either way). -/
def c9World : World :=
  { esUrl := some "http://localhost:9200"
    deleteResp := .resp 200 none
    createResp := .resp 200 none
    fetchResp := .resp 200 (some (Json.arr []))
    bulkResp := .resp 400 none }

/-- Witness for C9: on `c9World` the trace ends with an empty bulk call.
-/
theorem empty_array_bulk_still_issued_witness :
    (runMain c9World).1 = [Call.deleteIndex INDEX_NAME,
      Call.createIndex INDEX_NAME mappingBody, Call.fetchGet DATA_URL,
      Call.bulk INDEX_NAME []] :=
  empty_array_bulk_still_issued c9World "http://localhost:9200" 200 none 200 none 200
    rfl rfl rfl rfl rfl rfl

end XmasTree
